import Mathlib

/-!
Shallow embedding of the Pollution repository's data-collection code
(`src/data/data_collector.py`, `src/data/collect_data.py`) and proofs of the
specification claims about it.

Conventions of the embedding:
* HTTP traffic is modelled by an oracle: a function from request position
  (parameter name, page number) to the response the remote service gives.
  `requests.get` + `raise_for_status` raising a `RequestException`
  (transport failure or 4xx/5xx status) is one constructor; a successful
  JSON body is the other.
* pandas `DataFrame`s are modelled as a list of column labels plus a list
  of rows (each row a list of cell values, positionally aligned with the
  labels).  Cell values are strings, rational numbers (for floats — the
  source only ever averages, which is exact on rationals), an OpenAQ
  `{"utc": ...}` date dict, and null/NaN.
* Python exceptions that the source catches are modelled as ordinary
  values; exceptions the source lets escape are an `Except.error`.
* `logger` calls and `time.sleep` are side effects with no influence on
  data flow and are not modelled.
-/

namespace Pollution

/-- A cell value of a modelled pandas DataFrame / parsed JSON fragment. -/
inductive Value where
  | s (v : String)
  | n (v : Rat)
  | dUtc (utc : String)
  | null
deriving DecidableEq, Repr

/-- A modelled pandas DataFrame: column labels and rows of cells.
Rows are positionally aligned with `cols`. -/
structure DataFrame where
  cols : List Value
  rows : List (List Value)
deriving DecidableEq, Repr

/-- `pd.DataFrame()`: no columns, no rows. -/
def DataFrame.emptyDF : DataFrame := ⟨[], []⟩

/-- pandas `df.empty`: true when either axis has length 0. -/
def DataFrame.isEmpty (df : DataFrame) : Bool :=
  df.rows.isEmpty || df.cols.isEmpty

/-- Index of the first column equal to `c` (pandas label lookup). -/
def idxOf? (c : Value) : List Value → Option Nat
  | [] => none
  | d :: ds => if d = c then some 0 else (idxOf? c ds).map (· + 1)

/-- Look up each requested label; `none` as soon as one is missing
(pandas raises `KeyError`). -/
def colIdxs (cols : List Value) : List Value → Option (List Nat)
  | [] => some []
  | c :: cs =>
    match idxOf? c cols, colIdxs cols cs with
    | some i, some is => some (i :: is)
    | _, _ => none

/-- `df[[c₁, …, cₙ]]`: project onto the named columns, in the given order;
errors (KeyError) when a column is absent. -/
def DataFrame.select (df : DataFrame) (cs : List Value) : Except String DataFrame :=
  match colIdxs df.cols cs with
  | none => .error "KeyError"
  | some idxs => .ok ⟨cs, df.rows.map fun r => idxs.map fun i => r.getD i .null⟩

/-- The date-normalisation lambda of `_process_data`:
`x['utc'] if isinstance(x, dict) and 'utc' in x else x` (then
`pd.to_datetime`, which we model as keeping the UTC string). -/
def normDate : Value → Value
  | .dUtc u => .s u
  | v => v

/-- Apply `normDate` to the `date` column (position 0 after selection). -/
def normDateRow : List Value → List Value
  | [] => []
  | d :: rest => normDate d :: rest

/-- Insert into a ≤-sorted list (used to model pandas' sorted group keys). -/
def insertSorted (le : α → α → Bool) (a : α) : List α → List α
  | [] => [a]
  | b :: bs => if le a b then a :: b :: bs else b :: insertSorted le a bs

/-- Insertion sort by a boolean ≤. -/
def sortBy (le : α → α → Bool) (l : List α) : List α :=
  l.foldr (insertSorted le) []

/-- Total boolean order on cell values (constructor rank, then payload);
models pandas sorting the pivot's index and column labels. -/
def valLe (a b : Value) : Bool :=
  match a, b with
  | .null, _ => true
  | _, .null => false
  | .s x, .s y => (compare x y).isLE
  | .s _, _ => true
  | _, .s _ => false
  | .n x, .n y => decide (x ≤ y)
  | .n _, _ => true
  | _, .n _ => false
  | .dUtc x, .dUtc y => (compare x y).isLE

/-- Lexicographic extension of `valLe` to composite keys. -/
def keyLe : List Value → List Value → Bool
  | [], _ => true
  | _ :: _, [] => false
  | a :: as, b :: bs => if a = b then keyLe as bs else valLe a b

/-- The pivot's index labels: `['date', 'location', 'city', 'country']`. -/
def keyColsV : List Value := [.s "date", .s "location", .s "city", .s "country"]

/-- The columns `_process_data` extracts, in order. -/
def requiredCols : List Value :=
  [.s "date", .s "parameter", .s "value", .s "unit",
   .s "location", .s "city", .s "country"]

/-- Composite key of a selected long-form row
(layout `[date, parameter, value, unit, location, city, country]`). -/
def rowKey (r : List Value) : List Value :=
  [r.getD 0 .null, r.getD 4 .null, r.getD 5 .null, r.getD 6 .null]

/-- The `parameter` cell of a selected long-form row. -/
def rowParam (r : List Value) : Value := r.getD 1 .null

/-- The `value` cell of a selected long-form row. -/
def rowVal (r : List Value) : Value := r.getD 2 .null

/-- Rational addition written through `Rat.divInt` (it equals `· + ·`,
see `ratAdd_eq_add`; this spelling lets concrete tables be checked by
kernel reduction). -/
def ratAdd (a b : Rat) : Rat :=
  Rat.divInt (a.num * b.den + b.num * a.den) (a.den * b.den)

/-- Division of a rational by a natural, written through `Rat.divInt`
(it equals `· / ·`, see `ratDivNat_eq_div`). -/
def ratDivNat (a : Rat) (n : Nat) : Rat := Rat.divInt a.num (a.den * n)

theorem ratAdd_eq_add (a b : Rat) : ratAdd a b = a + b := by
  rw [ratAdd, Rat.divInt_eq_div]
  have ha : ((a.den : Rat)) ≠ 0 := by exact_mod_cast a.den_ne_zero
  have hb : ((b.den : Rat)) ≠ 0 := by exact_mod_cast b.den_ne_zero
  conv_rhs => rw [← Rat.num_div_den a, ← Rat.num_div_den b]
  rw [div_add_div _ _ ha hb]
  push_cast
  ring_nf

theorem ratDivNat_eq_div (a : Rat) (n : Nat) : ratDivNat a n = a / n := by
  rw [ratDivNat, Rat.divInt_eq_div]
  push_cast
  rw [← div_div, Rat.num_div_den]

/-- pandas mean over a cell list: skip non-numeric (NaN) entries,
NaN (null) when nothing remains; sum divided by count. -/
def meanVal (vs : List Value) : Value :=
  let ns := vs.filterMap fun v => match v with | .n q => some q | _ => none
  if ns.isEmpty then .null else .n (ratDivNat (ns.foldr ratAdd 0) ns.length)

/-- One pivot cell: mean of the `value`s of the rows matching key `k` and
parameter `p`. -/
def pivotCell (rows : List (List Value)) (k : List Value) (p : Value) : Value :=
  meanVal ((rows.filter fun r => decide (rowKey r = k ∧ rowParam r = p)).map rowVal)

/-- `pivot_table(index=['date','location','city','country'],
columns='parameter', values='value', aggfunc='mean').reset_index()` on the
selected long-form rows: one output row per distinct key (sorted), one
column per distinct parameter label (sorted), cells averaged. -/
def pivotTable (rows : List (List Value)) : DataFrame :=
  let keys := sortBy keyLe (rows.map rowKey).dedup
  let ps := sortBy valLe (rows.map rowParam).dedup
  ⟨keyColsV ++ ps, keys.map fun k => k ++ ps.map (pivotCell rows k)⟩

/-- `AirQualityDataCollector._process_data`: identity on an empty frame;
otherwise select the seven long-form columns (KeyError when one is
missing), normalise the date column, and pivot. -/
def processData (df : DataFrame) : Except String DataFrame :=
  if df.isEmpty then .ok df
  else
    match df.select requiredCols with
    | .error e => .error e
    | .ok sel => .ok (pivotTable (sel.rows.map normDateRow))

/-- A raw OpenAQ v3 measurement record as returned in a page's `results`
list (the `parameter` field is overwritten by the collector, so it is not
part of the raw record here). -/
structure RawRow where
  date : Value
  value : Rat
  unit : String
  location : String
  city : String
  country : String
deriving DecidableEq, Repr

/-- Outcome of one `requests.get` on the measurements endpoint:
either a `RequestException` (transport failure or `raise_for_status` on a
4xx/5xx answer) or the parsed `results` list. -/
inductive PageResult where
  | error
  | results (rs : List RawRow)
deriving DecidableEq, Repr

/-- The `results` list of a page, empty for an error. -/
def PageResult.resultsOf : PageResult → List RawRow
  | .error => []
  | .results rs => rs

/-- Why a parameter's page loop ended. -/
inductive ExitReason where
  | emptyPage
  | shortPage
  | capReached
  | error
deriving DecidableEq, Repr

/-- Result of one parameter's page loop: accumulated rows, number of GET
requests issued, and the loop's exit condition. -/
structure LoopResult where
  rows : List RawRow
  requests : Nat
  exit : ExitReason
deriving DecidableEq, Repr

/-- The `while page <= max_pages` loop of `fetch_air_quality_data` for one
parameter.  `fuel` is the number of page numbers still admitted by the
cap (`max_pages - page + 1`); `page` is the current page.  Per iteration:
issue the GET (an exception breaks the loop, keeping earlier rows); break
on an empty `results`; append the page's rows; break after appending when
the page is short (< 100 rows); otherwise advance. -/
def pageLoop (fp : Nat → PageResult) : Nat → Nat → LoopResult
  | 0, _ => ⟨[], 0, .capReached⟩
  | fuel + 1, page =>
    match fp page with
    | .error => ⟨[], 1, .error⟩
    | .results rs =>
      if rs.isEmpty then ⟨[], 1, .emptyPage⟩
      else if rs.length < 100 then ⟨rs, 1, .shortPage⟩
      else
        let rec_ := pageLoop fp fuel (page + 1)
        ⟨rs ++ rec_.rows, rec_.requests + 1, rec_.exit⟩

/-- A raw row tagged with the parameter it was fetched for
(`df['parameter'] = parameter`). -/
structure TaggedRow where
  row : RawRow
  parameter : String
deriving DecidableEq, Repr

/-- The default pollutant list of `fetch_air_quality_data`. -/
def defaultParameters : List String :=
  ["pm25", "pm10", "o3", "no2", "so2", "co"]

/-- `if parameters is None: parameters = [...]`. -/
def paramsOf (parameters : Option (List String)) : List String :=
  parameters.getD defaultParameters

/-- Concatenation of a map (models appending per-page DataFrames to
`all_data` and `pd.concat`). -/
def concatMap (f : α → List β) (l : List α) : List β :=
  (l.map f).flatten

/-- All rows accumulated in `all_data` across the parameter loop, tagged
with their parameter, in fetch order. -/
def combinedRows (fp : String → Nat → PageResult)
    (parameters : Option (List String)) (maxPages : Nat) : List TaggedRow :=
  concatMap (fun p => (pageLoop (fp p) maxPages 1).rows.map fun r => ⟨r, p⟩)
    (paramsOf parameters)

/-- Total number of GET requests issued by one call of
`fetch_air_quality_data`. -/
def totalRequests (fp : String → Nat → PageResult)
    (parameters : Option (List String)) (maxPages : Nat) : Nat :=
  ((paramsOf parameters).map fun p => (pageLoop (fp p) maxPages 1).requests).sum

/-- The long-form row `pd.concat` produces for one tagged record
(column layout `[date, value, unit, location, city, country, parameter]`). -/
def rawCells (t : TaggedRow) : List Value :=
  [t.row.date, .n t.row.value, .s t.row.unit, .s t.row.location,
   .s t.row.city, .s t.row.country, .s t.parameter]

/-- `combined_df = pd.concat(all_data, ignore_index=True)`. -/
def rawDataFrame (rows : List TaggedRow) : DataFrame :=
  ⟨[.s "date", .s "value", .s "unit", .s "location", .s "city",
    .s "country", .s "parameter"],
   rows.map rawCells⟩

/-- `AirQualityDataCollector.fetch_air_quality_data`: run the per-parameter
page loops, and return `pd.DataFrame()` when nothing was accumulated,
otherwise the processed pivot of the concatenated rows.  The `Except`
models exceptions the function does not catch (none are reachable). -/
def fetch_air_quality_data (fp : String → Nat → PageResult)
    (parameters : Option (List String)) (maxPages : Nat) :
    Except String DataFrame :=
  let rows := combinedRows fp parameters maxPages
  if rows.isEmpty then .ok DataFrame.emptyDF
  else processData (rawDataFrame rows)

/-- An OpenAQ location record (`get_locations` never inspects the fields,
so a representative shape suffices). -/
structure Location where
  id : Nat
  name : String
deriving DecidableEq, Repr

/-- Outcome of one `requests.get`: a raised `RequestException`
(transport failure), or a response with a status code and parsed body. -/
inductive HttpResp (α : Type) where
  | exception
  | status (code : Nat) (body : α)
deriving DecidableEq, Repr

/-- `response.raise_for_status()` raises exactly for 4xx and 5xx codes. -/
def raiseForStatusFails (code : Nat) : Bool :=
  decide (400 ≤ code ∧ code < 600)

/-- `AirQualityDataCollector.get_locations`: the `try` block issues the
GET, `raise_for_status`s, and returns `data.get('results', [])`; any
`RequestException` (transport or 4xx/5xx) is caught and `[]` returned.
The body is the optional `results` field of the parsed JSON. -/
def get_locations (resp : HttpResp (Option (List Location))) : List Location :=
  match resp with
  | .exception => []
  | .status code body =>
    if raiseForStatusFails code then [] else body.getD []

/-- EPA station metadata (`collect_data.get_nyc_stations` values).
Coordinates are decimal degrees, exact as rationals. -/
structure StationInfo where
  name : String
  lat : Rat
  lon : Rat
deriving DecidableEq, Repr

/-- `collect_data.get_nyc_stations`: the fixed station map. -/
def get_nyc_stations : List (String × StationInfo) :=
  [("36-005-0112", ⟨"IS 52 - Bronx", 40813/1000, -73913/1000⟩),
   ("36-081-0124", ⟨"PS 19 - Queens", 40743/1000, -73891/1000⟩),
   ("36-047-0010", ⟨"PS 274 - Brooklyn", 40621/1000, -73912/1000⟩),
   ("36-061-0014", ⟨"CCNY - Manhattan", 40819/1000, -73949/1000⟩)]

/-- One row of the EPA daily-data response (the fields `main` uses). -/
structure EpaRow where
  site_number : String
  parameter_name : String
  value : Rat
deriving DecidableEq, Repr

/-- The parsed EPA JSON body: a dict from keys to row lists (only the
`Data` key matters to `main`). -/
def EpaJson : Type := List (String × List EpaRow)

instance : DecidableEq EpaJson := inferInstanceAs (DecidableEq (List (String × List EpaRow)))

/-- `collect_data.fetch_epa_data`: return `response.json()` on status 200;
on any other status print and return `None`; on an exception print and
return `None`. -/
def fetch_epa_data (resp : HttpResp EpaJson) : Option EpaJson :=
  match resp with
  | .exception => none
  | .status code body => if code = 200 then some body else none

/-- Station-name join used by `main`
(`df['site_number'].map(station_names)`). -/
def stationName (site : String) : Option String :=
  (get_nyc_stations.lookup site).map (·.name)

/-- The `main` driver of `collect_data.py` after the fetch:
`some rows` means a CSV file is written holding `rows` (the `Data` rows
filtered to known stations and tagged with station names); `none` means
the `else` branch runs — no filtering, no file, console report only.
`if data and 'Data' in data` requires a non-`None`, non-empty dict that
has a `Data` key. -/
def epaCsvRows (resp : HttpResp EpaJson) : Option (List (EpaRow × String)) :=
  match fetch_epa_data resp with
  | none => none
  | some data =>
    if data.isEmpty then none
    else
      match data.lookup "Data" with
      | none => none
      | some rows =>
        some ((rows.filter fun r => (stationName r.site_number).isSome).map
          fun r => (r, (stationName r.site_number).getD ""))

/-! ### Helper lemmas about the page loop -/

theorem concatMap_nil (f : α → List β) : concatMap f [] = [] := rfl

theorem concatMap_cons (f : α → List β) (a : α) (l : List α) :
    concatMap f (a :: l) = f a ++ concatMap f l := by
  simp [concatMap]

/-- Each page-loop run issues at most `fuel` GET requests. -/
theorem pageLoop_requests_le (fp : Nat → PageResult) :
    ∀ fuel page, (pageLoop fp fuel page).requests ≤ fuel := by
  intro fuel
  induction fuel with
  | zero => intro page; simp [pageLoop]
  | succ n ih =>
    intro page
    simp only [pageLoop]
    cases h : fp page with
    | error => simp
    | results rs =>
      by_cases he : rs.isEmpty
      · simp [he]
      · by_cases hs : rs.length < 100
        · simp [he, hs]
        · simp only [he, hs, if_false, Bool.false_eq_true, if_neg]
          exact Nat.succ_le_succ (ih (page + 1))

/-- When pages `page, …, page+n-1` are full (≥ 100 rows) and page `page+n`
is short (< 100 rows), within the cap, the loop accumulates exactly pages
`page..page+n` (the short page included) and issues `n+1` requests,
exiting via the empty-page break when the short page has zero rows and
via the short-page break otherwise. -/
theorem pageLoop_short (fp : Nat → PageResult) :
    ∀ (n fuel page : Nat), n < fuel →
    (∀ j, page ≤ j → j < page + n → ∃ rs, fp j = .results rs ∧ 100 ≤ rs.length) →
    ∀ rsk, fp (page + n) = .results rsk → rsk.length < 100 →
    pageLoop fp fuel page =
      ⟨concatMap (fun j => (fp j).resultsOf) (List.range' page n) ++ rsk, n + 1,
       if rsk.isEmpty then .emptyPage else .shortPage⟩ := by
  intro n
  induction n with
  | zero =>
    intro fuel page hfuel hfull rsk hk hshort
    obtain ⟨m, rfl⟩ : ∃ m, fuel = m + 1 := ⟨fuel - 1, by omega⟩
    rw [Nat.add_zero] at hk
    simp only [pageLoop, hk]
    by_cases he : rsk.isEmpty
    · simp [he, List.isEmpty_iff.mp he, concatMap]
    · simp [he, hshort, concatMap]
  | succ n ih =>
    intro fuel page hfuel hfull rsk hk hshort
    obtain ⟨m, rfl⟩ : ∃ m, fuel = m + 1 := ⟨fuel - 1, by omega⟩
    obtain ⟨rs, hrs, hlen⟩ := hfull page le_rfl (by omega)
    have hne : rs.isEmpty = false := by
      cases rs with
      | nil => simp at hlen
      | cons a l => rfl
    have hns : ¬ rs.length < 100 := by omega
    have hrec := ih m (page + 1) (by omega)
      (fun j h1 h2 => hfull j (by omega) (by omega))
      rsk (by rw [show page + 1 + n = page + (n + 1) by omega]; exact hk) hshort
    simp only [pageLoop, hrs, hne, hns, Bool.false_eq_true, if_false, if_neg, hrec]
    rw [List.range'_succ]
    rw [concatMap_cons]
    simp [hrs, PageResult.resultsOf]

/-- When pages `page, …, page+n-1` are full and the request for page
`page+n` raises, within the cap, the loop keeps exactly the rows of pages
`page..page+n-1`, has issued `n+1` requests, and exits via the
exception handler's break. -/
theorem pageLoop_error (fp : Nat → PageResult) :
    ∀ (n fuel page : Nat), n < fuel →
    (∀ j, page ≤ j → j < page + n → ∃ rs, fp j = .results rs ∧ 100 ≤ rs.length) →
    fp (page + n) = .error →
    pageLoop fp fuel page =
      ⟨concatMap (fun j => (fp j).resultsOf) (List.range' page n), n + 1, .error⟩ := by
  intro n
  induction n with
  | zero =>
    intro fuel page hfuel hfull hk
    obtain ⟨m, rfl⟩ : ∃ m, fuel = m + 1 := ⟨fuel - 1, by omega⟩
    rw [Nat.add_zero] at hk
    simp [pageLoop, hk, concatMap]
  | succ n ih =>
    intro fuel page hfuel hfull hk
    obtain ⟨m, rfl⟩ : ∃ m, fuel = m + 1 := ⟨fuel - 1, by omega⟩
    obtain ⟨rs, hrs, hlen⟩ := hfull page le_rfl (by omega)
    have hne : rs.isEmpty = false := by
      cases rs with
      | nil => simp at hlen
      | cons a l => rfl
    have hns : ¬ rs.length < 100 := by omega
    have hrec := ih m (page + 1) (by omega)
      (fun j h1 h2 => hfull j (by omega) (by omega))
      (by rw [show page + 1 + n = page + (n + 1) by omega]; exact hk)
    simp only [pageLoop, hrs, hne, hns, Bool.false_eq_true, if_false, if_neg, hrec]
    rw [List.range'_succ]
    rw [concatMap_cons]
    simp [hrs, PageResult.resultsOf]

/-! ### Helper lemmas about sorting and the pivot -/

theorem mem_insertSorted (le : α → α → Bool) (a x : α) (l : List α) :
    x ∈ insertSorted le a l ↔ x = a ∨ x ∈ l := by
  induction l with
  | nil => simp [insertSorted]
  | cons b bs ih =>
    simp only [insertSorted]
    by_cases h : le a b
    · simp [h, List.mem_cons]
    · simp only [h, Bool.false_eq_true, if_false, if_neg, List.mem_cons, ih]
      tauto

theorem nodup_insertSorted (le : α → α → Bool) (a : α) (l : List α)
    (h : l.Nodup) (ha : a ∉ l) : (insertSorted le a l).Nodup := by
  induction l with
  | nil => simp [insertSorted]
  | cons b bs ih =>
    rw [List.nodup_cons] at h
    rw [List.mem_cons] at ha
    push_neg at ha
    simp only [insertSorted]
    by_cases hb : le a b
    · simp only [hb, if_true, List.nodup_cons, List.mem_cons]
      refine ⟨?_, h.1, h.2⟩
      push_neg
      exact ha
    · simp only [hb, Bool.false_eq_true, if_false, if_neg, List.nodup_cons]
      refine ⟨?_, ih h.2 ha.2⟩
      rw [mem_insertSorted]
      push_neg
      exact ⟨fun e => ha.1 e.symm, h.1⟩

theorem sortBy_cons (le : α → α → Bool) (a : α) (l : List α) :
    sortBy le (a :: l) = insertSorted le a (sortBy le l) := rfl

theorem mem_sortBy (le : α → α → Bool) (l : List α) (x : α) :
    x ∈ sortBy le l ↔ x ∈ l := by
  induction l with
  | nil => simp [sortBy]
  | cons a as ih =>
    rw [sortBy_cons, mem_insertSorted, ih, List.mem_cons]

theorem nodup_sortBy (le : α → α → Bool) (l : List α) (h : l.Nodup) :
    (sortBy le l).Nodup := by
  induction l with
  | nil => simp [sortBy]
  | cons a as ih =>
    rw [List.nodup_cons] at h
    rw [sortBy_cons]
    exact nodup_insertSorted le a _ (ih h.2) (fun hm => h.1 ((mem_sortBy le as a).mp hm))

/-- The long-form row `_process_data`'s selection and date-normalisation
produce for one tagged record. -/
def tagToLong (t : TaggedRow) : List Value :=
  [normDate t.row.date, .s t.parameter, .n t.row.value, .s t.row.unit,
   .s t.row.location, .s t.row.city, .s t.row.country]

theorem select_rawDataFrame (rows : List TaggedRow) :
    (rawDataFrame rows).select requiredCols =
      .ok ⟨requiredCols, rows.map fun t =>
        [t.row.date, .s t.parameter, .n t.row.value, .s t.row.unit,
         .s t.row.location, .s t.row.city, .s t.row.country]⟩ := by
  have h : (rawDataFrame rows).select requiredCols
      = .ok ⟨requiredCols, (rows.map rawCells).map fun r =>
          [0, 6, 1, 2, 3, 4, 5].map fun i => r.getD i Value.null⟩ := rfl
  rw [h, List.map_map]
  rfl

/-- On the concatenated non-empty raw collection, `_process_data` succeeds
and returns the pivot of the normalised long-form rows. -/
theorem processData_rawDataFrame (rows : List TaggedRow) (h : rows ≠ []) :
    processData (rawDataFrame rows) = .ok (pivotTable (rows.map tagToLong)) := by
  obtain ⟨t, ts, rfl⟩ := List.exists_cons_of_ne_nil h
  have h1 : processData (rawDataFrame (t :: ts))
      = .ok (pivotTable ((((t :: ts).map rawCells).map fun r =>
          [0, 6, 1, 2, 3, 4, 5].map fun i => r.getD i Value.null).map normDateRow)) := rfl
  rw [h1, List.map_map, List.map_map]
  rfl

theorem pivotTable_cols (rows : List (List Value)) :
    (pivotTable rows).cols = keyColsV ++ sortBy valLe (rows.map rowParam).dedup := rfl

theorem mem_pivot_params (rows : List (List Value)) (v : Value) :
    v ∈ sortBy valLe (rows.map rowParam).dedup ↔ v ∈ rows.map rowParam := by
  rw [mem_sortBy, List.mem_dedup]

theorem nodup_pivot_params (rows : List (List Value)) :
    (sortBy valLe (rows.map rowParam).dedup).Nodup :=
  nodup_sortBy _ _ (List.nodup_dedup _)

/-- The composite keys (first four cells) of the pivot's output rows are
pairwise distinct: one output row per composite key. -/
theorem pivotTable_keys_nodup (rows : List (List Value)) :
    ((pivotTable rows).rows.map fun r => r.take 4).Nodup := by
  have hlen : ∀ k ∈ sortBy keyLe (rows.map rowKey).dedup, k.length = 4 := by
    intro k hk
    rw [mem_sortBy, List.mem_dedup] at hk
    obtain ⟨r, _, rfl⟩ := List.mem_map.mp hk
    rfl
  show ((sortBy keyLe (rows.map rowKey).dedup).map _ |>.map _).Nodup
  rw [List.map_map]
  have hid : ∀ k ∈ sortBy keyLe (rows.map rowKey).dedup,
      ((fun r => List.take 4 r) ∘ fun k =>
        k ++ (sortBy valLe (rows.map rowParam).dedup).map (pivotCell rows k)) k = id k := by
    intro k hk
    simp only [Function.comp_apply, id_eq]
    rw [← hlen k hk, List.take_left]
  rw [List.map_congr_left hid, List.map_id]
  exact nodup_sortBy _ _ (List.nodup_dedup _)

/-- `fetch_air_quality_data` only ever returns normally: the only
exceptions its body can meet are `RequestException`s, and those are caught
inside the page loop. -/
theorem fetch_never_raises (fp : String → Nat → PageResult)
    (parameters : Option (List String)) (maxPages : Nat) :
    ∃ out, fetch_air_quality_data fp parameters maxPages = .ok out := by
  unfold fetch_air_quality_data
  by_cases h : (combinedRows fp parameters maxPages).isEmpty
  · exact ⟨_, by rw [if_pos h]⟩
  · rw [if_neg h]
    exact ⟨_, processData_rawDataFrame _ (by simpa [List.isEmpty_iff] using h)⟩

/-- Rows of parameters other than `q` depend only on the responses for
those parameters. -/
theorem combinedRows_filter_ne (fp fp' : String → Nat → PageResult)
    (parameters : Option (List String)) (maxPages : Nat) (q : String)
    (hagree : ∀ p, p ≠ q → fp p = fp' p) :
    (combinedRows fp parameters maxPages).filter (fun t => decide (t.parameter ≠ q))
      = (combinedRows fp' parameters maxPages).filter (fun t => decide (t.parameter ≠ q)) := by
  unfold combinedRows
  generalize paramsOf parameters = ps
  induction ps with
  | nil => rfl
  | cons p ps ih =>
    rw [concatMap_cons, concatMap_cons, List.filter_append, List.filter_append, ih]
    congr 1
    by_cases hpq : p = q
    · subst hpq
      rw [List.filter_map, List.filter_map]
      have hnil : ∀ (L : List RawRow),
          (L.filter ((fun t => decide (t.parameter ≠ p)) ∘ fun r => (⟨r, p⟩ : TaggedRow))) = [] := by
        intro L
        rw [List.filter_eq_nil_iff]
        intro a _
        simp
      rw [hnil, hnil]
    · rw [hagree p hpq]

/-! ### Claim theorems -/

/-- C1: for every parameter in the parameter list of
`fetch_air_quality_data`, when pages `1..k-1` are full (≥ 100 rows) and
page `k` (within the cap) is the first page with fewer than 100 rows, the
per-parameter paging loop stops at page `k`, the accumulated data is
exactly the rows of pages `1..k-1` followed by page `k`'s rows (an empty
page `k` contributes no rows), and exactly `k` requests are issued. -/
theorem C1_paging_stops_at_first_short_page
    (fp : String → Nat → PageResult) (parameters : Option (List String))
    (maxPages : Nat) (p : String) (_hp : p ∈ paramsOf parameters)
    (k : Nat) (hk1 : 1 ≤ k) (hkcap : k ≤ maxPages)
    (hfull : ∀ j, 1 ≤ j → j < k → ∃ rs, fp p j = .results rs ∧ 100 ≤ rs.length)
    (rsk : List RawRow) (hlast : fp p k = .results rsk) (hshort : rsk.length < 100) :
    (pageLoop (fp p) maxPages 1).rows =
      concatMap (fun j => (fp p j).resultsOf) (List.range' 1 (k - 1)) ++ rsk ∧
    (pageLoop (fp p) maxPages 1).requests = k := by
  have h := pageLoop_short (fp p) (k - 1) maxPages 1 (by omega)
    (fun j h1 h2 => hfull j h1 (by omega))
    rsk (by rw [show 1 + (k - 1) = k by omega]; exact hlast) hshort
  rw [h]
  exact ⟨rfl, by show k - 1 + 1 = k; omega⟩

def rowW1 : RawRow := ⟨.s "2024-01-01T00:00:00Z", 10, "ug/m3", "Loc", "LA", "US"⟩

def fpC1 : String → Nat → PageResult := fun _ _ => .results [rowW1]

/-- Witness for C1 at a concrete oracle whose first page is short. -/
theorem C1_witness :
    (pageLoop (fpC1 "pm25") 10 1).rows =
      concatMap (fun j => (fpC1 "pm25" j).resultsOf) (List.range' 1 (1 - 1)) ++ [rowW1] ∧
    (pageLoop (fpC1 "pm25") 10 1).requests = 1 :=
  C1_paging_stops_at_first_short_page fpC1 none 10 "pm25" (by decide) 1 (by decide)
    (by decide) (fun j h1 h2 => absurd h2 (by omega)) [rowW1] rfl (by decide)

/-- C2: for every call of `fetch_air_quality_data` with page cap
`maxPages` and every parameter of its parameter list, the loop issues at
most `maxPages` GET requests for that parameter, whatever the pages
contain. -/
theorem C2_request_cap
    (fp : String → Nat → PageResult) (parameters : Option (List String))
    (maxPages : Nat) (p : String) (_hp : p ∈ paramsOf parameters) :
    (pageLoop (fp p) maxPages 1).requests ≤ maxPages :=
  pageLoop_requests_le (fp p) maxPages 1

def fpC2 : String → Nat → PageResult := fun _ _ => .results (List.replicate 100 rowW1)

/-- Witness for C2 at an oracle that always answers a full page. -/
theorem C2_witness : (pageLoop (fpC2 "o3") 5 1).requests ≤ 5 :=
  C2_request_cap fpC2 none 5 "o3" (by decide)

/-- C3: a `RequestException` while fetching page `k` of parameter `q`
terminates only `q`'s page loop: rows of `q`'s earlier pages are kept, the
loop's exit is the exception handler's break, the exception is not raised
to the caller of `fetch_air_quality_data`, and the accumulated rows of
every other parameter are unchanged whenever the responses for the other
parameters are unchanged. -/
theorem C3_error_aborts_only_current_parameter
    (fp fp' : String → Nat → PageResult) (parameters : Option (List String))
    (maxPages : Nat) (q : String) (_hq : q ∈ paramsOf parameters)
    (k : Nat) (hk1 : 1 ≤ k) (hkcap : k ≤ maxPages)
    (hfull : ∀ j, 1 ≤ j → j < k → ∃ rs, fp q j = .results rs ∧ 100 ≤ rs.length)
    (herr : fp q k = .error)
    (hagree : ∀ p, p ≠ q → fp p = fp' p) :
    (pageLoop (fp q) maxPages 1).rows =
      concatMap (fun j => (fp q j).resultsOf) (List.range' 1 (k - 1)) ∧
    (pageLoop (fp q) maxPages 1).exit = .error ∧
    (∃ out, fetch_air_quality_data fp parameters maxPages = Except.ok out) ∧
    (combinedRows fp parameters maxPages).filter (fun t => decide (t.parameter ≠ q))
      = (combinedRows fp' parameters maxPages).filter (fun t => decide (t.parameter ≠ q)) := by
  have h := pageLoop_error (fp q) (k - 1) maxPages 1 (by omega)
    (fun j h1 h2 => hfull j h1 (by omega))
    (by rw [show 1 + (k - 1) = k by omega]; exact herr)
  rw [h]
  exact ⟨rfl, rfl, fetch_never_raises fp parameters maxPages,
    combinedRows_filter_ne fp fp' parameters maxPages q hagree⟩

def fpC3 : String → Nat → PageResult :=
  fun p _ => if p = "pm25" then .error else .results []

/-- Witness for C3 at an oracle whose `pm25` request raises at page 1. -/
theorem C3_witness :
    (pageLoop (fpC3 "pm25") 10 1).rows =
      concatMap (fun j => (fpC3 "pm25" j).resultsOf) (List.range' 1 (1 - 1)) ∧
    (pageLoop (fpC3 "pm25") 10 1).exit = .error ∧
    (∃ out, fetch_air_quality_data fpC3 none 10 = Except.ok out) ∧
    (combinedRows fpC3 none 10).filter (fun t => decide (t.parameter ≠ "pm25"))
      = (combinedRows fpC3 none 10).filter (fun t => decide (t.parameter ≠ "pm25")) :=
  C3_error_aborts_only_current_parameter fpC3 fpC3 none 10 "pm25" (by decide)
    1 (by decide) (by decide) (fun j h1 h2 => absurd h2 (by omega))
    (by decide) (fun p hp => rfl)

/-- C10: with an explicitly empty parameter list, `fetch_air_quality_data`
returns `pd.DataFrame()` and issues no HTTP request; the six-pollutant
default applies exactly when the argument is omitted (`None`), never when
an empty list is passed. -/
theorem C10_empty_parameter_list (fp : String → Nat → PageResult) (maxPages : Nat) :
    fetch_air_quality_data fp (some []) maxPages = .ok DataFrame.emptyDF ∧
    totalRequests fp (some []) maxPages = 0 ∧
    paramsOf none = defaultParameters ∧
    ∀ l : List String, paramsOf (some l) = l :=
  ⟨rfl, rfl, rfl, fun _ => rfl⟩

/-- Witness for C10 at a concrete oracle and cap. -/
theorem C10_witness :
    fetch_air_quality_data fpC1 (some []) 7 = .ok DataFrame.emptyDF ∧
    totalRequests fpC1 (some []) 7 = 0 ∧
    paramsOf none = defaultParameters ∧
    ∀ l : List String, paramsOf (some l) = l :=
  C10_empty_parameter_list fpC1 7

def locW : Location := ⟨100, "Station A"⟩

/-- C4 counterexample: a 300 status is not 2xx, yet `get_locations`
returns the response's results, because `raise_for_status` raises only
for 4xx/5xx; so "returns an empty list on every non-2xx status" fails. -/
theorem C4_counterexample :
    ¬(200 ≤ 300 ∧ 300 ≤ 299) ∧
    get_locations (HttpResp.status 300 (some [locW])) = [locW] ∧
    get_locations (HttpResp.status 300 (some [locW])) ≠ [] :=
  ⟨by decide, rfl, by decide⟩

/-- C4 amended: `get_locations` returns `[]` on a transport exception, on
every 4xx/5xx status (the statuses `raise_for_status` raises on), on a
response without a `results` field, and on a success with zero results;
being a total function, it never propagates an exception. -/
theorem C4_amended_empty_on_failure (resp : HttpResp (Option (List Location)))
    (h : resp = .exception ∨
         (∃ code body, resp = .status code body ∧ 400 ≤ code ∧ code < 600) ∨
         (∃ code, resp = .status code none) ∨
         (∃ code, resp = .status code (some []))) :
    get_locations resp = [] := by
  rcases h with rfl | ⟨code, body, rfl, h4, h6⟩ | ⟨code, rfl⟩ | ⟨code, rfl⟩
  · rfl
  · simp [get_locations, raiseForStatusFails, h4, h6]
  · cases hc : raiseForStatusFails code <;> simp [get_locations, hc]
  · cases hc : raiseForStatusFails code <;> simp [get_locations, hc]

/-- Witness for C4's amended statement at a concrete 404 response. -/
theorem C4_witness :
    get_locations (HttpResp.status 404 (some [locW])) = [] :=
  C4_amended_empty_on_failure (HttpResp.status 404 (some [locW]))
    (Or.inr (Or.inl ⟨404, some [locW], rfl, by decide, by decide⟩))

def rowC6a : TaggedRow :=
  ⟨⟨.dUtc "2024-01-01T00:00:00Z", 10, "ug/m3", "Loc1", "LA", "US"⟩, "pm25"⟩

def rowC6b : TaggedRow :=
  ⟨⟨.dUtc "2024-01-01T00:00:00Z", 20, "ug/m3", "Loc1", "LA", "US"⟩, "pm25"⟩

/-- C6: two raw rows identical on (date, location, city, country,
parameter) carrying values 10 and 20 pivot to a single row for that
composite key whose `pm25` cell is 15, the mean of the colliding
values. -/
theorem C6_collision_mean :
    processData (rawDataFrame [rowC6a, rowC6b]) =
      .ok ⟨keyColsV ++ [.s "pm25"],
        [[.s "2024-01-01T00:00:00Z", .s "Loc1", .s "LA", .s "US", .n 15]]⟩ := by
  rfl

/-- C8: on a non-200 status or a transport exception, `fetch_epa_data`
returns no data, and `main` then takes the `else` branch: no station
filtering, no CSV file, console report only. -/
theorem C8_epa_error_writes_nothing (resp : HttpResp EpaJson)
    (h : resp = .exception ∨ ∃ code body, resp = .status code body ∧ code ≠ 200) :
    fetch_epa_data resp = none ∧ epaCsvRows resp = none := by
  have hf : fetch_epa_data resp = none := by
    rcases h with rfl | ⟨code, body, rfl, hc⟩
    · rfl
    · simp [fetch_epa_data, hc]
  refine ⟨hf, ?_⟩
  unfold epaCsvRows
  rw [hf]

/-- Witness for C8 at a concrete 500 response. -/
theorem C8_witness :
    fetch_epa_data (HttpResp.status 500 ([] : EpaJson)) = none ∧
    epaCsvRows (HttpResp.status 500 ([] : EpaJson)) = none :=
  C8_epa_error_writes_nothing (HttpResp.status 500 ([] : EpaJson))
    (Or.inr ⟨500, [], rfl, by decide⟩)

/-! ### Missing-column failure of the reshape step -/

theorem idxOf?_eq_none (c : Value) (l : List Value) (h : c ∉ l) :
    idxOf? c l = none := by
  induction l with
  | nil => rfl
  | cons d ds ih =>
    rw [List.mem_cons] at h
    push_neg at h
    simp only [idxOf?]
    rw [if_neg (fun e => h.1 e.symm), ih h.2]
    rfl

/-- Column lookup fails as soon as one requested label is absent. -/
theorem colIdxs_eq_none (cols : List Value) (cs : List Value) (c : Value)
    (hc : c ∈ cs) (h : idxOf? c cols = none) : colIdxs cols cs = none := by
  induction cs with
  | nil => cases hc
  | cons d ds ih =>
    rw [List.mem_cons] at hc
    simp only [colIdxs]
    rcases hc with rfl | hc
    · rw [h]
    · rw [ih hc]
      cases idxOf? d cols <;> rfl

/-- When the `parameter` column is absent from a non-empty frame,
`_process_data` fails with the column-selection `KeyError`. -/
theorem processData_missing_parameter (df : DataFrame) (hne : df.isEmpty = false)
    (hmiss : Value.s "parameter" ∉ df.cols) :
    processData df = .error "KeyError" := by
  have h1 : colIdxs df.cols requiredCols = none :=
    colIdxs_eq_none df.cols requiredCols (Value.s "parameter") (by decide)
      (idxOf?_eq_none _ _ hmiss)
  have hsel : df.select requiredCols = .error "KeyError" := by
    unfold DataFrame.select
    rw [h1]
  simp only [processData, hne, Bool.false_eq_true, if_false, if_neg, hsel]

theorem sortBy_dedup_ne_nil {x : Value} {l : List Value} (h : x ∈ l)
    (le : Value → Value → Bool) : sortBy le l.dedup ≠ [] := by
  intro hnil
  have hm := (mem_sortBy le l.dedup x).mpr (List.mem_dedup.mpr h)
  rw [hnil] at hm
  exact absurd hm (List.not_mem_nil x)

theorem sortBy_key_dedup_ne_nil {x : List Value} {l : List (List Value)} (h : x ∈ l)
    (le : List Value → List Value → Bool) : sortBy le l.dedup ≠ [] := by
  intro hnil
  have hm := (mem_sortBy le l.dedup x).mpr (List.mem_dedup.mpr h)
  rw [hnil] at hm
  exact absurd hm (List.not_mem_nil x)

/-- The pivot of a non-empty long-form collection is a non-empty frame. -/
theorem pivotTable_not_empty (rows : List (List Value)) (h : rows ≠ []) :
    (pivotTable rows).isEmpty = false := by
  obtain ⟨r, rs, rfl⟩ := List.exists_cons_of_ne_nil h
  have hkeys : sortBy keyLe ((List.map rowKey (r :: rs)).dedup) ≠ [] :=
    sortBy_key_dedup_ne_nil (x := rowKey r) (by simp) keyLe
  obtain ⟨k, ks, hk⟩ := List.exists_cons_of_ne_nil hkeys
  show ((pivotTable (r :: rs)).rows.isEmpty || (pivotTable (r :: rs)).cols.isEmpty) = false
  have hrows : (pivotTable (r :: rs)).rows.isEmpty = false := by
    show (List.map _ (sortBy keyLe ((List.map rowKey (r :: rs)).dedup))).isEmpty = false
    rw [hk]
    rfl
  rw [hrows]
  rfl

/-- No output column of the pivot of pollutant-tagged rows is a reserved
label outside the key fields and the pollutant codes. -/
theorem pivot_cols_reserved_not_mem (rows : List TaggedRow)
    (hp : ∀ t ∈ rows, t.parameter ∈ defaultParameters) (name : String)
    (h1 : Value.s name ∉ keyColsV) (h2 : name ∉ defaultParameters) :
    Value.s name ∉ (pivotTable (rows.map tagToLong)).cols := by
  rw [pivotTable_cols, List.mem_append]
  rintro (hk | hpar)
  · exact h1 hk
  · rw [mem_pivot_params, List.map_map] at hpar
    obtain ⟨t, ht, hteq⟩ := List.mem_map.mp hpar
    have hteq' : Value.s t.parameter = Value.s name := hteq
    have hpn : t.parameter = name := Value.s.inj hteq'
    exact h2 (hpn ▸ hp t ht)

def rawC5 : List TaggedRow :=
  [⟨⟨.s "2024-01-01T00:00:00Z", 10, "ug/m3", "Loc1", "LA", "US"⟩, "pm25"⟩]

def outC5 : DataFrame :=
  ⟨keyColsV ++ [.s "pm25"],
   [[.s "2024-01-01T00:00:00Z", .s "Loc1", .s "LA", .s "US", .n 10]]⟩

/-- C5 counterexample: `outC5` is `_process_data`'s own output on a
one-row raw table (first conjunct), yet applying `_process_data` to
`outC5` is a `KeyError`, not `outC5` again: the wide table has no
`parameter`, `value` or `unit` columns, so the reshape step is not
idempotent on its non-empty outputs. -/
theorem C5_counterexample :
    processData (rawDataFrame rawC5) = .ok outC5 ∧
    processData outC5 = .error "KeyError" ∧
    processData outC5 ≠ .ok outC5 := by
  refine ⟨rfl, rfl, fun hc => ?_⟩
  rw [show processData outC5 = .error "KeyError" from rfl] at hc
  exact Except.noConfusion hc

/-- C5 amended: the reshape step is a fixed point only on the empty
table: `_process_data` returns an empty input unchanged, while on every
non-empty pollutant-tagged raw collection it returns a wide table on
which re-running `_process_data` raises `KeyError` (the output lacks the
`parameter`, `value` and `unit` columns) instead of returning the table
again. -/
theorem C5_amended_idempotent_only_on_empty
    (df : DataFrame) (hdf : df.isEmpty = true)
    (rows : List TaggedRow) (hrows : rows ≠ [])
    (hp : ∀ t ∈ rows, t.parameter ∈ defaultParameters) :
    processData df = .ok df ∧
    ∃ out, processData (rawDataFrame rows) = .ok out ∧
      processData out = .error "KeyError" := by
  refine ⟨by simp [processData, hdf], pivotTable (rows.map tagToLong),
    processData_rawDataFrame rows hrows, ?_⟩
  exact processData_missing_parameter _
    (pivotTable_not_empty _ (by simpa using hrows))
    (pivot_cols_reserved_not_mem rows hp "parameter" (by decide) (by decide))

/-- Witness for C5's amended statement at the empty table and a concrete
one-row collection. -/
theorem C5_witness :
    processData DataFrame.emptyDF = .ok DataFrame.emptyDF ∧
    ∃ out, processData (rawDataFrame rawC5) = .ok out ∧
      processData out = .error "KeyError" :=
  C5_amended_idempotent_only_on_empty DataFrame.emptyDF rfl rawC5
    (by decide) (by decide)

/-- C9: on every non-empty pollutant-tagged raw collection, the wide
table `_process_data` returns carries no `unit`, `value` or `parameter`
column: the unit string of each raw measurement is discarded by the
pivot, whose only non-key columns are the pollutant codes. -/
theorem C9_unit_discarded (rows : List TaggedRow) (h : rows ≠ [])
    (hp : ∀ t ∈ rows, t.parameter ∈ defaultParameters) :
    ∃ out, processData (rawDataFrame rows) = .ok out ∧
      Value.s "unit" ∉ out.cols ∧ Value.s "value" ∉ out.cols ∧
      Value.s "parameter" ∉ out.cols :=
  ⟨pivotTable (rows.map tagToLong), processData_rawDataFrame rows h,
    pivot_cols_reserved_not_mem rows hp "unit" (by decide) (by decide),
    pivot_cols_reserved_not_mem rows hp "value" (by decide) (by decide),
    pivot_cols_reserved_not_mem rows hp "parameter" (by decide) (by decide)⟩

def rawC9 : List TaggedRow :=
  [⟨⟨.dUtc "2024-02-01T00:00:00Z", 5, "ppm", "LocB", "NY", "US"⟩, "o3"⟩]

/-- Witness for C9 at a concrete one-row collection. -/
theorem C9_witness :
    ∃ out, processData (rawDataFrame rawC9) = .ok out ∧
      Value.s "unit" ∉ out.cols ∧ Value.s "value" ∉ out.cols ∧
      Value.s "parameter" ∉ out.cols :=
  C9_unit_discarded rawC9 (by decide) (by decide)

def rowC7a : TaggedRow :=
  ⟨⟨.dUtc "2024-01-01T00:00:00Z", 10, "ug/m3", "Loc1", "LA", "US"⟩, "pm25"⟩

def rowC7b : TaggedRow :=
  ⟨⟨.dUtc "2024-01-01T00:00:00Z", 30, "ppm", "Loc1", "LA", "US"⟩, "o3"⟩

/-- C7: whenever `fetch_air_quality_data` accumulates a non-empty raw
collection, the returned table's columns are exactly the composite key
fields followed by one column per parameter that produced at least one
accumulated row (each parameter exactly once), and the composite keys of
its rows are pairwise distinct; in particular (second conjunct), raw rows
for `pm25` and `o3` at the same composite key produce one single row with
both parameter columns populated. -/
theorem C7_wide_table_shape
    (fp : String → Nat → PageResult) (parameters : Option (List String))
    (maxPages : Nat) (h : combinedRows fp parameters maxPages ≠ []) :
    (∃ out ps, fetch_air_quality_data fp parameters maxPages = Except.ok out ∧
      out.cols = keyColsV ++ ps ∧ ps.Nodup ∧
      (∀ v, v ∈ ps ↔ ∃ t ∈ combinedRows fp parameters maxPages, v = Value.s t.parameter) ∧
      (out.rows.map fun r => r.take 4).Nodup) ∧
    processData (rawDataFrame [rowC7a, rowC7b]) =
      .ok ⟨keyColsV ++ [.s "o3", .s "pm25"],
        [[.s "2024-01-01T00:00:00Z", .s "Loc1", .s "LA", .s "US", .n 30, .n 10]]⟩ := by
  constructor
  · have hfetch : fetch_air_quality_data fp parameters maxPages
        = .ok (pivotTable ((combinedRows fp parameters maxPages).map tagToLong)) := by
      simp only [fetch_air_quality_data]
      rw [if_neg (fun hh => h (List.isEmpty_iff.mp hh)), processData_rawDataFrame _ h]
    refine ⟨_, _, hfetch, rfl, nodup_pivot_params _, ?_, pivotTable_keys_nodup _⟩
    intro v
    rw [mem_pivot_params, List.map_map]
    constructor
    · intro hv
      obtain ⟨t, ht, hteq⟩ := List.mem_map.mp hv
      exact ⟨t, ht, (show Value.s t.parameter = v from hteq).symm⟩
    · rintro ⟨t, ht, rfl⟩
      exact List.mem_map.mpr ⟨t, ht, rfl⟩
  · rfl

def rawRowC7 : RawRow := ⟨.s "2024-03-01T00:00:00Z", 7, "ppb", "LocC", "CHI", "US"⟩

def fpC7 : String → Nat → PageResult := fun _ _ => .results [rawRowC7]

/-- Witness for C7 at a concrete oracle whose every first page is short. -/
theorem C7_witness :
    (∃ out ps, fetch_air_quality_data fpC7 none 3 = Except.ok out ∧
      out.cols = keyColsV ++ ps ∧ ps.Nodup ∧
      (∀ v, v ∈ ps ↔ ∃ t ∈ combinedRows fpC7 none 3, v = Value.s t.parameter) ∧
      (out.rows.map fun r => r.take 4).Nodup) ∧
    processData (rawDataFrame [rowC7a, rowC7b]) =
      .ok ⟨keyColsV ++ [.s "o3", .s "pm25"],
        [[.s "2024-01-01T00:00:00Z", .s "Loc1", .s "LA", .s "US", .n 30, .n 10]]⟩ :=
  C7_wide_table_shape fpC7 none 3 (by decide)

end Pollution
